import Mathlib

/-!
Verification of the ex2 pipeline subsystem (nexus_pipeline.py).

Shallow embedding of the Python source: dynamically typed Python values
become the inductive `PyVal`; Python floats are modelled as rationals
(no claim depends on floating-point rounding, only on branch structure
and on which value is rendered); Python exceptions become `Except PyErr`.
Dict mutation is explicit state passing: a stage call returns the
mutated dictionary. The decimal rendering of a non-integral float is
abstracted by `numStr` (a fixed deterministic rendering); no claim
inspects the digits of a non-integral number.
-/

/-- A Python runtime value, as used by the pipeline: strings, ints,
floats (as rationals), dicts (insertion-ordered association lists),
lists, and None. -/
inductive PyVal where
  | str (s : String)
  | int (n : Int)
  | num (q : ℚ)
  | dict (entries : List (String × PyVal))
  | list (items : List PyVal)
  | none

/-- The Python exception kinds the embedded code can raise.
`valueError` is the bare `ValueError` raised by TransformStage on an
invalid tag (the spec calls it MalformedInputError). -/
inductive PyErr where
  | valueError
  | keyError (k : String)
  | typeError
  | attributeError
  | indexError
  | zeroDivisionError
deriving DecidableEq

/-- isinstance(v, str) -/
def PyVal.isStr : PyVal → Bool
  | .str _ => true
  | _ => false

/-- isinstance(v, dict) -/
def PyVal.isDict : PyVal → Bool
  | .dict _ => true
  | _ => false

/-- isinstance(v, list) -/
def PyVal.isList : PyVal → Bool
  | .list _ => true
  | _ => false

/-- First-match lookup in an insertion-ordered dict. -/
def getKey : List (String × PyVal) → String → Option PyVal
  | [], _ => Option.none
  | (k, v) :: rest, key => if k = key then some v else getKey rest key

/-- Python dict item assignment: overwrite in place if the key exists
(keeping its position), otherwise append at the end. -/
def setKey : List (String × PyVal) → String → PyVal → List (String × PyVal)
  | [], key, val => [(key, val)]
  | (k, v) :: rest, key, val =>
    if k = key then (key, val) :: rest else (k, v) :: setKey rest key val

/-- Python subscript `d[k]` with a string key: KeyError on a missing
dict key, TypeError when the value is not subscriptable by a string. -/
def dGet (d : PyVal) (k : String) : Except PyErr PyVal :=
  match d with
  | .dict es =>
    match getKey es k with
    | some v => .ok v
    | Option.none => .error (.keyError k)
  | _ => .error .typeError

/-- Item assignment `d[k] = v` on a dict; identity on non-dicts (only
reached after a successful `dGet` on the same value). -/
def pySet (d : PyVal) (k : String) (v : PyVal) : PyVal :=
  match d with
  | .dict es => .dict (setKey es k v)
  | x => x

/-- Lookup on a dict value, `Option.none` on non-dicts; used to state
properties of envelopes. -/
def pyGetOpt (d : PyVal) (k : String) : Option PyVal :=
  match d with
  | .dict es => getKey es k
  | _ => Option.none

/-- Python len(): string length, number of dict keys, list length;
TypeError otherwise. -/
def pyLen (d : PyVal) : Except PyErr Nat :=
  match d with
  | .str s => .ok s.length
  | .dict es => .ok es.length
  | .list l => .ok l.length
  | _ => .error .typeError

/-- Python iteration `for i in v`: list elements, characters of a
string (each a one-character string), keys of a dict; TypeError for
non-iterables. -/
def pyIter (d : PyVal) : Except PyErr (List PyVal) :=
  match d with
  | .list l => .ok l
  | .str s => .ok (s.data.map (fun c => .str (String.singleton c)))
  | .dict es => .ok (es.map (fun p => .str p.1))
  | _ => .error .typeError

/-- Python subscript `v[0]`. -/
def pyIndex0 (d : PyVal) : Except PyErr PyVal :=
  match d with
  | .list [] => .error .indexError
  | .list (x :: _) => .ok x
  | .str s =>
    match s.data with
    | [] => .error .indexError
    | c :: _ => .ok (.str (String.singleton c))
  | .dict _ => .error (.keyError "0")
  | _ => .error .typeError

/-- Python `v == lit` for a string literal: equal strings, False for
any non-string value (Python equality across types). -/
def pyEqStr (v : PyVal) (s : String) : Bool :=
  match v with
  | .str t => t = s
  | _ => false

/-- Int viewed as a rational (Python int promoted to float). -/
def intToRat (n : Int) : ℚ := ⟨n, 1, one_ne_zero, Nat.coprime_one_right _⟩

/-- Numeric view of a value: Python int or float; `Option.none` for
non-numeric values. -/
def pyNumVal : PyVal → Option ℚ
  | .int n => some (intToRat n)
  | .num q => some q
  | _ => Option.none

/-- Rendering of a float. Integral values print their integer part;
the decimal rendering of a non-integral value is abstracted as
num/den (deterministic; no claim depends on these digits). -/
def numStr (q : ℚ) : String :=
  if q.den = 1 then toString q.num else toString q.num ++ "/" ++ toString q.den

/-- Python repr() of a string (quote escaping is not modelled; no
claim depends on it). -/
def quoteStr (s : String) : String :=
  String.singleton (Char.ofNat 39) ++ s ++ String.singleton (Char.ofNat 39)

mutual

/-- Python repr() restricted to the embedded values. -/
def pyRepr : PyVal → String
  | .str s => quoteStr s
  | .int n => toString n
  | .num q => numStr q
  | .none => "None"
  | .list l => "[" ++ pyReprListItems l ++ "]"
  | .dict es => "\x7b" ++ pyReprDictItems es ++ "\x7d"

def pyReprListItems : List PyVal → String
  | [] => ""
  | [x] => pyRepr x
  | x :: xs => pyRepr x ++ ", " ++ pyReprListItems xs

def pyReprDictItems : List (String × PyVal) → String
  | [] => ""
  | [(k, v)] => quoteStr k ++ ": " ++ pyRepr v
  | (k, v) :: xs => quoteStr k ++ ": " ++ pyRepr v ++ ", " ++ pyReprDictItems xs

end

/-- Python str(), as used by f-strings: a string renders as itself,
anything else by its repr. -/
def pyStr (v : PyVal) : String :=
  match v with
  | .str s => s
  | x => pyRepr x

/-- Split a character list at every occurrence of `sep`; mirrors
Python str.split with a one-character separator (an empty input gives
one empty field). -/
def splitOnChar (sep : Char) : List Char → List (List Char)
  | [] => [[]]
  | c :: cs =>
    if c = sep then [] :: splitOnChar sep cs
    else
      match splitOnChar sep cs with
      | [] => [[c]]
      | r :: rs => (c :: r) :: rs

/-- Number of occurrences of a character in a character list. -/
def countChar (c : Char) : List Char → Nat
  | [] => 0
  | x :: xs => (if x = c then 1 else 0) + countChar c xs

/-- Python s.split(sep) for a one-character separator, as strings. -/
def pySplitStr (s : String) (sep : Char) : List String :=
  (splitOnChar sep s.data).map String.mk

/-! ## Stages (InputStage, TransformStage, OutputStage) -/

/-- Characters used by the brace check of InputStage. -/
def lbraceChar : Char := Char.ofNat 123

def rbraceChar : Char := Char.ofNat 125

/-- `data != "" and data[0] == lbrace and data[-1] == rbrace` -/
def braceDelim (s : String) : Bool :=
  match s.data with
  | [] => false
  | c :: cs =>
    c = lbraceChar &&
      (match (c :: cs).getLast? with
       | some d => d = rbraceChar
       | Option.none => false)

/-- InputStage.process: classifies raw input and wraps it in a tagged
envelope dict, keys in insertion order as the source assigns them.
Total: never raises. (The print trace is a side effect, not modelled.) -/
def inputStage (data : PyVal) : PyVal :=
  match data with
  | .dict _ => .dict [("raw", data), ("payload", data), ("type", .str "json")]
  | .list _ => .dict [("raw", data), ("payload", data), ("type", .str "stream")]
  | .str s =>
    if braceDelim s then
      .dict [("raw", data), ("type", .str "json"), ("payload", data)]
    else if s.data.contains ',' then
      .dict [("raw", data), ("type", .str "csv"), ("payload", data)]
    else
      .dict [("raw", data), ("type", .str "invalid")]
  | _ => .dict [("raw", data), ("type", .str "invalid")]

/-- `data["payload"].split(newline)`: the payload must be a string
(AttributeError otherwise, no split attribute). -/
def pySplitLines (p : PyVal) : Except PyErr (List String) :=
  match p with
  | .str s => .ok (pySplitStr s (Char.ofNat 10))
  | _ => .error .attributeError

/-- TransformStage.process: type-specific parsing/enrichment, mutating
and returning the envelope. Raises ValueError on the invalid tag.
The csv branch assigns payload twice in the source (lines, then the
per-row comma splits built by iterating that just-assigned list); the
second assignment is expressed directly over the list of lines. -/
def transformStage (data : PyVal) : Except PyErr PyVal := do
  let t ← dGet data "type"
  if pyEqStr t "invalid" then
    throw .valueError
  else if pyEqStr t "csv" then
    let p ← dGet data "payload"
    let lines ← pySplitLines p
    let data := pySet data "payload" (.list (lines.map PyVal.str))
    let rows : List PyVal :=
      lines.map (fun row => .list ((pySplitStr row ',').map PyVal.str))
    let data := pySet data "payload" (.list rows)
    return pySet data "size" (.int rows.length)
  else if pyEqStr t "json" then
    -- the source assigns size := 0 before reading the payload; that
    -- write is observable only through the returned envelope, so it is
    -- folded into each successful branch
    let p ← dGet data "payload"
    match p with
    | .str s => return pySet data "size" (.int (countChar ':' s.data))
    | _ =>
      let n ← pyLen p
      return pySet data "size" (.int n)
  else if pyEqStr t "stream" then
    let p ← dGet data "payload"
    let n ← pyLen p
    return pySet data "size" (.int n)
  else
    return data

/-- Python sum() over a list of values (initial value the int 0):
TypeError on a non-numeric element; result promoted to float as soon
as a float enters (the numeric result is what matters; int/float
distinction of the sum itself is not observed by any claim, so the sum
is carried as a rational). -/
def pySum (l : List PyVal) : Except PyErr ℚ :=
  match l with
  | [] => .ok 0
  | x :: xs =>
    match pyNumVal x with
    | some q => do
      let r ← pySum xs
      return q + r
    | Option.none => .error .typeError

/-- Python true division `a / b` where `a` is already numeric and `b`
is an arbitrary value: TypeError on a non-numeric divisor,
ZeroDivisionError on a zero divisor. -/
def pyDivVal (a : ℚ) (b : PyVal) : Except PyErr ℚ :=
  match pyNumVal b with
  | some q => if q = 0 then .error .zeroDivisionError else .ok (a / q)
  | Option.none => .error .typeError

/-- The list comprehension `[i["value"] for i in payload]`: collect
the "value" field of every element, failing at the first element that
does not support the lookup. -/
def getValues : List PyVal → Except PyErr (List PyVal)
  | [] => .ok []
  | i :: rest => do
    let v ← dGet i "value"
    let vs ← getValues rest
    return v :: vs

/-- OutputStage.process: renders the envelope into a summary string.
Returns the pair (return value, envelope state after the call); the
source never assigns into the envelope, so the state component is the
input in every branch. A tag matching no branch falls off the end of
the Python function and returns None. -/
def outputStageFull (data : PyVal) : Except PyErr (PyVal × PyVal) := do
  let t ← dGet data "type"
  if pyEqStr t "invalid" then
    return (.str "Invalid type", data)
  else if pyEqStr t "json" then
    let p ← dGet data "payload"
    if p.isDict then
      let v ← dGet p "value"
      let u ← dGet p "unit"
      return (.str ("Processed temperature reading: " ++ pyStr v ++ "°" ++ pyStr u
        ++ "  (Normal range)"), data)
    else
      let sz ← dGet data "size"
      return (.str ("Processed temperature reading: " ++ pyStr sz
        ++ " reading processed"), data)
  else if pyEqStr t "csv" then
    let sz ← dGet data "size"
    return (.str ("User activity logged: " ++ pyStr sz ++ " actions processed"), data)
  else if pyEqStr t "stream" then
    let p ← dGet data "payload"
    let elems ← pyIter p
    let temps ← getValues elems
    if temps.isEmpty then
      let sz ← dGet data "size"
      return (.str ("Stream summary: " ++ pyStr sz ++ " readings"), data)
    else
      let sz ← dGet data "size"
      let s ← pySum temps
      let avg ← pyDivVal s sz
      let first ← pyIndex0 p
      let u ← dGet first "unit"
      return (.str ("Stream summary: " ++ pyStr sz ++ " readings, avg: "
        ++ numStr avg ++ "°" ++ pyStr u), data)
  else
    return (.none, data)

/-- OutputStage.process seen as the value it returns to the caller. -/
def outputStage (data : PyVal) : Except PyErr PyVal :=
  (outputStageFull data).map (fun r => r.1)

/-! ## Pipelines (adapters), guards, and the manager -/

/-- The three concrete stage kinds a pipeline can hold. -/
inductive Stage where
  | input
  | transform
  | output

/-- One stage application, as `data = s.process(data)` sees it. -/
def runStage : Stage → PyVal → Except PyErr PyVal
  | .input, d => .ok (inputStage d)
  | .transform, d => transformStage d
  | .output, d => outputStage d

/-- The stage loop shared by every adapter: fold the data through the
stages in order; an exception raised by a stage propagates uncaught. -/
def runStages : List Stage → PyVal → Except PyErr PyVal
  | [], d => .ok d
  | s :: rest, d =>
    match runStage s d with
    | .error e => .error e
    | .ok d2 => runStages rest d2

/-- JSONAdapter format guard: isinstance(data, (str, dict)). -/
def jsonGuard (d : PyVal) : Bool := d.isStr || d.isDict

/-- CSVAdapter format guard: a string containing a comma (the source
checks the two conditions in two ifs with the same rejection string). -/
def csvGuard (d : PyVal) : Bool :=
  d.isStr &&
    (match d with
     | .str s => s.data.contains ','
     | _ => false)

/-- StreamAdapter format guard: a list whose every element is a dict. -/
def streamGuard (d : PyVal) : Bool :=
  match d with
  | .list l => l.all PyVal.isDict
  | _ => false

/-- JSONAdapter.process. -/
def jsonAdapterProcess (stages : List Stage) (d : PyVal) : Except PyErr PyVal :=
  if jsonGuard d then runStages stages d
  else .ok (.str (pyStr d ++ " is not a JSON-like format"))

/-- CSVAdapter.process. -/
def csvAdapterProcess (stages : List Stage) (d : PyVal) : Except PyErr PyVal :=
  if csvGuard d then runStages stages d
  else .ok (.str (pyStr d ++ " is not a CSV-like format"))

/-- StreamAdapter.process. -/
def streamAdapterProcess (stages : List Stage) (d : PyVal) : Except PyErr PyVal :=
  if streamGuard d then runStages stages d
  else .ok (.str (pyStr d ++ " is not a stream-like format"))

/-- Which adapter class a pipeline instantiates. -/
inductive AdapterKind where
  | json
  | csv
  | stream

/-- A constructed pipeline: an adapter with its added stages. -/
structure Pipe where
  kind : AdapterKind
  stages : List Stage

/-- Dispatch to the process method of the pipeline. -/
def pipeProcess (p : Pipe) (d : PyVal) : Except PyErr PyVal :=
  match p.kind with
  | .json => jsonAdapterProcess p.stages d
  | .csv => csvAdapterProcess p.stages d
  | .stream => streamAdapterProcess p.stages d

/-- NexusManager.process_data: thread the data through every pipeline
in insertion order; exceptions propagate. -/
def managerProcess : List Pipe → PyVal → Except PyErr PyVal
  | [], d => .ok d
  | p :: ps, d =>
    match pipeProcess p d with
    | .error e => .error e
    | .ok d2 => managerProcess ps d2

/-! ## Spec-side classification (for the refinement claim about InputStage) -/

/-- The four spec-level tags; the source realizes them as the strings
json / csv / stream / invalid. -/
inductive SpecTag where
  | structured
  | delimited
  | stream
  | invalid

/-- The tag string the source uses for each spec-level tag. -/
def SpecTag.codeName : SpecTag → String
  | .structured => "json"
  | .delimited => "csv"
  | .stream => "stream"
  | .invalid => "invalid"

/-- Modelled from the wording of the classification claim: the rules
checked in order, first match wins — mapping, list, non-text,
brace-delimited non-empty text, text with a comma, otherwise invalid —
together with the payload each rule attaches. -/
def classifySpec (raw : PyVal) : SpecTag × Option PyVal :=
  if raw.isDict then (.structured, some raw)
  else if raw.isList then (.stream, some raw)
  else if !raw.isStr then (.invalid, Option.none)
  else if (match raw with | .str s => braceDelim s | _ => false) then (.structured, some raw)
  else if (match raw with | .str s => s.data.contains ',' | _ => false) then (.delimited, some raw)
  else (.invalid, Option.none)

/-! ## Helper lemmas -/

theorem splitOnChar_ne_nil (sep : Char) (l : List Char) : splitOnChar sep l ≠ [] := by
  induction l with
  | nil => simp [splitOnChar]
  | cons c cs ih =>
    simp only [splitOnChar]
    split
    · simp
    · split
      · simp
      · simp

theorem splitOnChar_length (sep : Char) (l : List Char) :
    (splitOnChar sep l).length = countChar sep l + 1 := by
  induction l with
  | nil => simp [splitOnChar, countChar]
  | cons c cs ih =>
    simp only [splitOnChar, countChar]
    by_cases h : c = sep
    · simp only [if_pos h, List.length_cons, ih]
      omega
    · simp only [if_neg h]
      cases hs : splitOnChar sep cs with
      | nil => exact absurd hs (splitOnChar_ne_nil sep cs)
      | cons r rs =>
        rw [hs] at ih
        simp only [List.length_cons] at ih
        simp only [List.length_cons]
        omega

theorem getKey_setKey_ne (es : List (String × PyVal)) (k k2 : String) (v : PyVal)
    (h : k2 ≠ k) : getKey (setKey es k v) k2 = getKey es k2 := by
  have hne : ¬ (k = k2) := fun hh => h hh.symm
  induction es with
  | nil => simp [setKey, getKey, hne]
  | cons p rest ih =>
    obtain ⟨k1, v1⟩ := p
    simp only [setKey]
    by_cases h1 : k1 = k
    · subst h1
      simp [getKey, hne]
    · simp only [if_neg h1, getKey]
      by_cases h2 : k1 = k2
      · simp [h2]
      · simp [h2, ih]

theorem dGet_ne_zeroDiv (d : PyVal) (k : String) :
    dGet d k ≠ .error .zeroDivisionError := by
  cases d <;> simp [dGet]
  case dict es => cases getKey es k <;> simp

theorem getValues_ne_zeroDiv (l : List PyVal) :
    getValues l ≠ .error .zeroDivisionError := by
  induction l with
  | nil => simp [getValues]
  | cons i rest ih =>
    simp only [getValues, bind, Except.bind]
    cases hv : dGet i "value" with
    | error e =>
      intro hcontra
      injection hcontra with he
      exact dGet_ne_zeroDiv i "value" (by rw [hv, he])
    | ok v =>
      cases hr : getValues rest with
      | error e =>
        intro hcontra
        injection hcontra with he
        exact ih (by rw [hr, he])
      | ok vs => simp [pure, Except.pure]

theorem pySum_ne_zeroDiv (l : List PyVal) :
    pySum l ≠ .error .zeroDivisionError := by
  induction l with
  | nil => simp [pySum]
  | cons x xs ih =>
    simp only [pySum]
    cases pyNumVal x with
    | none => simp
    | some q =>
      simp only [bind, Except.bind]
      cases hr : pySum xs with
      | error e =>
        intro hcontra
        injection hcontra with he
        exact ih (by rw [hr, he])
      | ok r => simp [pure, Except.pure]

theorem intToRat_eq_zero_iff (n : Int) : intToRat n = 0 ↔ n = 0 := by
  unfold intToRat
  constructor
  · intro h
    have := congrArg Rat.num h
    simpa using this
  · intro h
    subst h
    rfl

/-! ## Claim theorems -/

/-- C1: a string with no comma and not brace-delimited passes the
structured-adapter guard (it is a string), is tagged invalid by
InputStage, TransformStage then raises ValueError (the spec name is
MalformedInputError), and the error propagates uncaught out of the
adapter process call. -/
theorem c1_invalid_string_aborts (s : String)
    (hc : s.data.contains ',' = false) (hb : braceDelim s = false) :
    jsonGuard (.str s) = true
    ∧ pyGetOpt (inputStage (.str s)) "type" = some (.str "invalid")
    ∧ transformStage (inputStage (.str s)) = .error .valueError
    ∧ jsonAdapterProcess [.input, .transform, .output] (.str s) = .error .valueError := by
  have hc2 : ',' ∉ s.data := by simpa using hc
  have henv : inputStage (.str s) = .dict [("raw", .str s), ("type", .str "invalid")] := by
    simp [inputStage, hb, hc2]
  refine ⟨rfl, ?_, ?_, ?_⟩
  · rw [henv]
    rfl
  · rw [henv]
    rfl
  · have hg : jsonGuard (.str s) = true := rfl
    simp only [jsonAdapterProcess, hg, if_true, runStages, runStage, henv]
    rfl

/-- C1 witness at the concrete scenario string of the spec. -/
theorem c1_witness :
    ("not valid json or csv".data.contains ',' = false)
    ∧ (braceDelim "not valid json or csv" = false)
    ∧ jsonAdapterProcess [.input, .transform, .output]
        (.str "not valid json or csv") = .error .valueError :=
  ⟨rfl, rfl, (c1_invalid_string_aborts "not valid json or csv" rfl rfl).2.2.2⟩

/-- C2 counterexample: an envelope tagged json whose payload is a
mapping that lacks the value key. The claim predicts the generic
size-count summary; the code takes the mapping branch on dict-ness
alone and raises KeyError instead. -/
theorem c2_counterexample :
    outputStage (.dict [("raw", PyVal.none),
        ("payload", .dict [("sensor", .str "temp")]),
        ("type", .str "json"), ("size", .int 1)])
      = .error (.keyError "value") := by rfl

/-- C2 amended: for every envelope tagged json whose payload is not a
decoded mapping, OutputStage returns the summary quoting size as a
generic record count (when the payload is a mapping, the single-reading
branch runs unconditionally, whether or not value/unit are present). -/
theorem c2_nonmapping_payload_size_summary (es : List (String × PyVal)) (p sz : PyVal)
    (ht : getKey es "type" = some (.str "json"))
    (hp : getKey es "payload" = some p)
    (hd : p.isDict = false)
    (hs : getKey es "size" = some sz) :
    outputStage (.dict es)
      = .ok (.str ("Processed temperature reading: " ++ pyStr sz ++ " reading processed")) := by
  simp [outputStage, outputStageFull, dGet, ht, hp, hs, hd, pyEqStr,
    bind, Except.bind, pure, Except.pure, Except.map]

/-- C2 witness: a json envelope whose payload is still raw text. -/
theorem c2_witness :
    getKey [("type", PyVal.str "json"), ("payload", PyVal.str "\x7bx\x7d"),
        ("size", PyVal.int 3)] "type" = some (.str "json")
    ∧ (PyVal.str "\x7bx\x7d").isDict = false
    ∧ outputStage (.dict [("type", PyVal.str "json"), ("payload", PyVal.str "\x7bx\x7d"),
        ("size", PyVal.int 3)])
      = .ok (.str "Processed temperature reading: 3 reading processed") :=
  ⟨rfl, rfl,
    c2_nonmapping_payload_size_summary
      [("type", PyVal.str "json"), ("payload", PyVal.str "\x7bx\x7d"), ("size", PyVal.int 3)]
      (PyVal.str "\x7bx\x7d") (PyVal.int 3) rfl rfl rfl rfl⟩

/-- C3: InputStage realizes exactly the first-match classification of
the spec (mapping, list, non-text, brace-delimited text, comma text,
otherwise invalid), tags with the corresponding code tag string,
attaches the payload each rule dictates, and keeps the raw input; it
is a total function, so it never raises. -/
theorem c3_classification_refines_spec (d : PyVal) :
    pyGetOpt (inputStage d) "type" = some (.str (classifySpec d).1.codeName)
    ∧ pyGetOpt (inputStage d) "payload" = (classifySpec d).2
    ∧ pyGetOpt (inputStage d) "raw" = some d := by
  cases d with
  | str s =>
    by_cases hb : braceDelim s
    · have henv : inputStage (.str s)
          = .dict [("raw", .str s), ("type", .str "json"), ("payload", .str s)] := by
        simp [inputStage, hb]
      have hcl : classifySpec (.str s) = (.structured, some (.str s)) := by
        simp [classifySpec, PyVal.isDict, PyVal.isList, PyVal.isStr, hb]
      rw [henv, hcl]
      exact ⟨rfl, rfl, rfl⟩
    · by_cases hc : s.data.contains ','
      · have hc2 : ',' ∈ s.data := by simpa using hc
        have henv : inputStage (.str s)
            = .dict [("raw", .str s), ("type", .str "csv"), ("payload", .str s)] := by
          simp [inputStage, hb, hc2]
        have hcl : classifySpec (.str s) = (.delimited, some (.str s)) := by
          simp [classifySpec, PyVal.isDict, PyVal.isList, PyVal.isStr, hb, hc2]
        rw [henv, hcl]
        exact ⟨rfl, rfl, rfl⟩
      · have hc2 : ',' ∉ s.data := by simpa using hc
        have henv : inputStage (.str s)
            = .dict [("raw", .str s), ("type", .str "invalid")] := by
          simp [inputStage, hb, hc2]
        have hcl : classifySpec (.str s) = (.invalid, Option.none) := by
          simp [classifySpec, PyVal.isDict, PyVal.isList, PyVal.isStr, hb, hc2]
        rw [henv, hcl]
        exact ⟨rfl, rfl, rfl⟩
  | dict es => exact ⟨rfl, rfl, rfl⟩
  | list l => exact ⟨rfl, rfl, rfl⟩
  | int n => exact ⟨rfl, rfl, rfl⟩
  | num q => exact ⟨rfl, rfl, rfl⟩
  | none => exact ⟨rfl, rfl, rfl⟩

/-- C4: an input rejected by a format guard makes the adapter return
the descriptive rejection string, for every stage list (so no stage
runs) and as an ordinary return value (no exception). -/
theorem c4_guard_rejection_is_returned (d : PyVal) (stages : List Stage) :
    (jsonGuard d = false →
      jsonAdapterProcess stages d = .ok (.str (pyStr d ++ " is not a JSON-like format")))
    ∧ (csvGuard d = false →
      csvAdapterProcess stages d = .ok (.str (pyStr d ++ " is not a CSV-like format")))
    ∧ (streamGuard d = false →
      streamAdapterProcess stages d = .ok (.str (pyStr d ++ " is not a stream-like format"))) := by
  refine ⟨fun h => ?_, fun h => ?_, fun h => ?_⟩
  · simp [jsonAdapterProcess, h]
  · simp [csvAdapterProcess, h]
  · simp [streamAdapterProcess, h]

/-- C4 witness: an int fails all three guards and is rejected with the
formatted messages, with a non-empty stage list. -/
theorem c4_witness :
    jsonGuard (.int 7) = false
    ∧ jsonAdapterProcess [.input] (.int 7) = .ok (.str "7 is not a JSON-like format")
    ∧ csvGuard (.int 7) = false
    ∧ csvAdapterProcess [.input] (.int 7) = .ok (.str "7 is not a CSV-like format")
    ∧ streamGuard (.int 7) = false
    ∧ streamAdapterProcess [.input] (.int 7) = .ok (.str "7 is not a stream-like format") :=
  ⟨rfl, (c4_guard_rejection_is_returned (.int 7) [.input]).1 rfl,
    rfl, (c4_guard_rejection_is_returned (.int 7) [.input]).2.1 rfl,
    rfl, (c4_guard_rejection_is_returned (.int 7) [.input]).2.2 rfl⟩

/-- C9: the string containing a comma inside braces passes the
delimited-adapter guard yet InputStage classifies it as json
(the code tag for structured), not csv, because the brace rule is
checked first. -/
theorem c9_csv_guard_not_delimited :
    csvGuard (.str "\x7ba,b\x7d") = true
    ∧ pyGetOpt (inputStage (.str "\x7ba,b\x7d")) "type" = some (.str "json")
    ∧ pyGetOpt (inputStage (.str "\x7ba,b\x7d")) "type" ≠ some (.str "csv") := by
  refine ⟨rfl, rfl, ?_⟩
  have h : pyGetOpt (inputStage (.str "\x7ba,b\x7d")) "type" = some (.str "json") := rfl
  rw [h]
  simp

/-- C10: an empty composition is the identity on accepted input: a
pipeline with no stages returns a guard-accepted input unchanged, and
a manager with no pipelines returns its input unchanged. -/
theorem c10_empty_composition_identity (d : PyVal) :
    (jsonGuard d = true → jsonAdapterProcess [] d = .ok d)
    ∧ (csvGuard d = true → csvAdapterProcess [] d = .ok d)
    ∧ (streamGuard d = true → streamAdapterProcess [] d = .ok d)
    ∧ managerProcess [] d = .ok d := by
  refine ⟨fun h => ?_, fun h => ?_, fun h => ?_, rfl⟩
  · simp [jsonAdapterProcess, h, runStages]
  · simp [csvAdapterProcess, h, runStages]
  · simp [streamAdapterProcess, h, runStages]

/-- C10 witness at concrete accepted inputs of each shape. -/
theorem c10_witness :
    jsonAdapterProcess [] (.str "a,b") = .ok (.str "a,b")
    ∧ csvAdapterProcess [] (.str "a,b") = .ok (.str "a,b")
    ∧ streamAdapterProcess [] (.list []) = .ok (.list [])
    ∧ managerProcess [] PyVal.none = .ok PyVal.none :=
  ⟨(c10_empty_composition_identity (.str "a,b")).1 rfl,
    (c10_empty_composition_identity (.str "a,b")).2.1 rfl,
    (c10_empty_composition_identity (.list [])).2.2.1 rfl,
    (c10_empty_composition_identity PyVal.none).2.2.2⟩

/-- The rows TransformStage produces for delimited text: split on
line breaks, then each line split on commas. -/
def csvRows (s : String) : List PyVal :=
  (pySplitStr s (Char.ofNat 10)).map (fun row => .list ((pySplitStr row ',').map PyVal.str))

/-- C6: on a delimited envelope whose payload text has N line-break
characters, TransformStage replaces the payload with the comma-splits
of the lines (first writing the line list, then the row list, as the
source does) and sets size to N+1; the row count is exactly N+1. -/
theorem c6_delimited_rows_and_size (es : List (String × PyVal)) (s : String)
    (ht : getKey es "type" = some (.str "csv"))
    (hp : getKey es "payload" = some (.str s)) :
    transformStage (.dict es)
      = .ok (pySet (pySet (pySet (.dict es) "payload"
            (.list ((pySplitStr s (Char.ofNat 10)).map PyVal.str)))
          "payload" (.list (csvRows s)))
          "size" (.int (countChar (Char.ofNat 10) s.data + 1)))
    ∧ (csvRows s).length = countChar (Char.ofNat 10) s.data + 1 := by
  have hlen : (csvRows s).length = countChar (Char.ofNat 10) s.data + 1 := by
    simp only [csvRows, pySplitStr, List.length_map]
    exact splitOnChar_length _ _
  refine ⟨?_, hlen⟩
  simp only [transformStage, dGet, ht, hp, pyEqStr, pySplitLines, csvRows,
    bind, Except.bind, pure, Except.pure, hlen]
  have h2 : (pySplitStr s (Char.ofNat 10)).length = countChar (Char.ofNat 10) s.data + 1 := by
    simp only [pySplitStr, List.length_map]
    exact splitOnChar_length _ _
  simp only [List.length_map, h2]
  norm_cast

/-- C6 witness: two lines of two fields each (one line break). -/
theorem c6_witness :
    getKey [("raw", PyVal.str "a,b\nc,d"), ("type", PyVal.str "csv"),
        ("payload", PyVal.str "a,b\nc,d")] "payload" = some (.str "a,b\nc,d")
    ∧ transformStage (.dict [("raw", PyVal.str "a,b\nc,d"), ("type", PyVal.str "csv"),
        ("payload", PyVal.str "a,b\nc,d")])
      = .ok (.dict [("raw", PyVal.str "a,b\nc,d"), ("type", PyVal.str "csv"),
        ("payload", .list [.list [.str "a", .str "b"], .list [.str "c", .str "d"]]),
        ("size", .int 2)])
    ∧ (csvRows "a,b\nc,d").length = 2 :=
  ⟨rfl,
    (c6_delimited_rows_and_size
      [("raw", PyVal.str "a,b\nc,d"), ("type", PyVal.str "csv"),
        ("payload", PyVal.str "a,b\nc,d")] "a,b\nc,d" rfl rfl).1,
    (c6_delimited_rows_and_size
      [("raw", PyVal.str "a,b\nc,d"), ("type", PyVal.str "csv"),
        ("payload", PyVal.str "a,b\nc,d")] "a,b\nc,d" rfl rfl).2⟩

/-- C7: the envelope type field is never changed after classification:
whenever TransformStage succeeds, the returned (mutated) envelope has
the same type field as the input; OutputStage returns its summary with
the envelope state untouched (the source assigns nothing into it), so
the pair-returning embedding passes the envelope through unchanged. -/
theorem c7_type_set_once :
    (∀ d r, transformStage d = .ok r → pyGetOpt r "type" = pyGetOpt d "type")
    ∧ (∀ d r, outputStageFull d = .ok r → r.2 = d) := by
  constructor
  · intro d r h
    cases d with
    | dict es =>
      simp only [transformStage, dGet, bind, Except.bind] at h
      cases hg : getKey es "type" with
      | none => rw [hg] at h; cases h
      | some t =>
        rw [hg] at h
        by_cases hinv : pyEqStr t "invalid" = true
        · simp [hinv, throw, throwThe, MonadExceptOf.throw] at h
        · simp only [hinv, Bool.false_eq_true, if_false] at h
          by_cases hcsv : pyEqStr t "csv" = true
          · simp only [hcsv, if_true] at h
            cases hp : getKey es "payload" with
            | none => rw [hp] at h; cases h
            | some p =>
              rw [hp] at h
              cases p with
              | str s =>
                simp only [pySplitLines, pure, Except.pure] at h
                injection h with h2
                subst h2
                simp only [pySet, pyGetOpt]
                rw [getKey_setKey_ne _ _ _ _ (by simp),
                  getKey_setKey_ne _ _ _ _ (by simp),
                  getKey_setKey_ne _ _ _ _ (by simp)]
              | _ => simp [pySplitLines] at h
          · simp only [hcsv, Bool.false_eq_true, if_false] at h
            by_cases hjson : pyEqStr t "json" = true
            · simp only [hjson, if_true] at h
              cases hp : getKey es "payload" with
              | none => rw [hp] at h; cases h
              | some p =>
                rw [hp] at h
                cases p with
                | str s =>
                  simp only [pure, Except.pure] at h
                  injection h with h2
                  subst h2
                  simp only [pySet, pyGetOpt]
                  rw [getKey_setKey_ne _ _ _ _ (by simp)]
                | dict es2 =>
                  simp only [pyLen, pure, Except.pure, bind, Except.bind] at h
                  injection h with h2
                  subst h2
                  simp only [pySet, pyGetOpt]
                  rw [getKey_setKey_ne _ _ _ _ (by simp)]
                | list l =>
                  simp only [pyLen, pure, Except.pure, bind, Except.bind] at h
                  injection h with h2
                  subst h2
                  simp only [pySet, pyGetOpt]
                  rw [getKey_setKey_ne _ _ _ _ (by simp)]
                | _ => simp [pyLen, bind, Except.bind] at h
            · simp only [hjson, Bool.false_eq_true, if_false] at h
              by_cases hstream : pyEqStr t "stream" = true
              · simp only [hstream, if_true] at h
                cases hp : getKey es "payload" with
                | none => rw [hp] at h; cases h
                | some p =>
                  rw [hp] at h
                  cases p with
                  | str s =>
                    simp only [pyLen, pure, Except.pure, bind, Except.bind] at h
                    injection h with h2
                    subst h2
                    simp only [pySet, pyGetOpt]
                    rw [getKey_setKey_ne _ _ _ _ (by simp)]
                  | dict es2 =>
                    simp only [pyLen, pure, Except.pure, bind, Except.bind] at h
                    injection h with h2
                    subst h2
                    simp only [pySet, pyGetOpt]
                    rw [getKey_setKey_ne _ _ _ _ (by simp)]
                  | list l =>
                    simp only [pyLen, pure, Except.pure, bind, Except.bind] at h
                    injection h with h2
                    subst h2
                    simp only [pySet, pyGetOpt]
                    rw [getKey_setKey_ne _ _ _ _ (by simp)]
                  | _ => simp [pyLen, bind, Except.bind] at h
              · simp only [hstream, Bool.false_eq_true, if_false, pure, Except.pure] at h
                injection h with h2
                subst h2
                rfl
    | str s => simp [transformStage, dGet, bind, Except.bind] at h
    | int n => simp [transformStage, dGet, bind, Except.bind] at h
    | num q => simp [transformStage, dGet, bind, Except.bind] at h
    | list l => simp [transformStage, dGet, bind, Except.bind] at h
    | none => simp [transformStage, dGet, bind, Except.bind] at h
  · intro d r h
    unfold outputStageFull at h
    simp only [bind, Except.bind, pure, Except.pure] at h
    repeat' split at h
    all_goals (try cases h)
    all_goals rfl

/-- C7 witness: a stream envelope through TransformStage and an
invalid envelope through OutputStage. -/
theorem c7_witness :
    pyGetOpt (.dict [("type", PyVal.str "stream"), ("payload", PyVal.list []),
        ("size", PyVal.int 0)]) "type"
      = pyGetOpt (.dict [("type", PyVal.str "stream"), ("payload", PyVal.list [])]) "type"
    ∧ ((PyVal.str "Invalid type", PyVal.dict [("type", PyVal.str "invalid")]) : PyVal × PyVal).2
      = PyVal.dict [("type", PyVal.str "invalid")] :=
  ⟨c7_type_set_once.1 (.dict [("type", PyVal.str "stream"), ("payload", PyVal.list [])])
      (.dict [("type", PyVal.str "stream"), ("payload", PyVal.list []), ("size", PyVal.int 0)]) rfl,
    c7_type_set_once.2 (.dict [("type", PyVal.str "invalid")])
      (PyVal.str "Invalid type", PyVal.dict [("type", PyVal.str "invalid")]) rfl⟩

/-- C5: a stream envelope with an empty payload yields the count-only
summary (the division branch is never reached), and on any stream
envelope whose size equals the payload length (the invariant
TransformStage establishes) OutputStage never fails with
ZeroDivisionError: the division is guarded by the emptiness check, and
a non-empty value sequence forces a non-zero length. -/
theorem c5_empty_stream_no_div :
    (∀ es sz, getKey es "type" = some (.str "stream") →
      getKey es "payload" = some (.list []) →
      getKey es "size" = some sz →
      outputStage (.dict es) = .ok (.str ("Stream summary: " ++ pyStr sz ++ " readings")))
    ∧ (∀ es l, getKey es "type" = some (.str "stream") →
      getKey es "payload" = some (.list l) →
      getKey es "size" = some (.int l.length) →
      outputStage (.dict es) ≠ .error .zeroDivisionError) := by
  constructor
  · intro es sz ht hp hs
    simp [outputStage, outputStageFull, dGet, ht, hp, hs, pyEqStr, pyIter, getValues,
      bind, Except.bind, pure, Except.pure, Except.map, List.isEmpty]
  · intro es l ht hp hs
    have hT : dGet (.dict es) "type" = .ok (.str "stream") := by simp [dGet, ht]
    have hP : dGet (.dict es) "payload" = .ok (.list l) := by simp [dGet, hp]
    have hS : dGet (.dict es) "size" = .ok (.int (l.length : Int)) := by simp [dGet, hs]
    cases hv : getValues l with
    | error e =>
      have hout : outputStage (.dict es) = .error e := by
        simp [outputStage, outputStageFull, hT, hP, hS, pyEqStr, pyIter, hv,
          bind, Except.bind, Except.map]
      rw [hout]
      intro hcontra
      injection hcontra with he
      exact getValues_ne_zeroDiv l (by rw [hv, he])
    | ok ts =>
      cases ts with
      | nil =>
        have hout : outputStage (.dict es)
            = .ok (.str ("Stream summary: " ++ pyStr (.int (l.length : Int)) ++ " readings")) := by
          simp [outputStage, outputStageFull, hT, hP, hS, pyEqStr, pyIter, hv,
            bind, Except.bind, pure, Except.pure, Except.map]
        rw [hout]
        simp
      | cons t ts2 =>
        cases l with
        | nil => simp [getValues] at hv
        | cons x xs =>
          have hz : ¬ (intToRat ((xs.length : Int) + 1) = 0) := by
            rw [intToRat_eq_zero_iff]
            omega
          cases hsum : pySum (t :: ts2) with
          | error e =>
            have hout : outputStage (.dict es) = .error e := by
              simp [outputStage, outputStageFull, hT, hP, hS, pyEqStr, pyIter, hv, hsum,
                bind, Except.bind, Except.map]
            rw [hout]
            intro hcontra
            injection hcontra with he
            exact pySum_ne_zeroDiv (t :: ts2) (by rw [hsum, he])
          | ok q =>
            cases hu : dGet x "unit" with
            | error e =>
              have hout : outputStage (.dict es) = .error e := by
                simp [outputStage, outputStageFull, hT, hP, hS, pyEqStr, pyIter, hv, hsum,
                  hu, hz, pyDivVal, pyNumVal, pyIndex0, bind, Except.bind, Except.map]
              rw [hout]
              intro hcontra
              injection hcontra with he
              exact dGet_ne_zeroDiv x "unit" (by rw [hu, he])
            | ok u =>
              have hout : outputStage (.dict es)
                  = .ok (.str ("Stream summary: " ++ pyStr (.int ((x :: xs).length : Int))
                    ++ " readings, avg: " ++ numStr (q / intToRat ((x :: xs).length : Int))
                    ++ "°" ++ pyStr u)) := by
                simp [outputStage, outputStageFull, hT, hP, hS, pyEqStr, pyIter, hv, hsum,
                  hu, hz, pyDivVal, pyNumVal, pyIndex0, bind, Except.bind, pure, Except.pure,
                  Except.map]
              rw [hout]
              simp

/-- C5 witness: the empty stream envelope, and a one-reading stream
envelope on which no ZeroDivisionError occurs. -/
theorem c5_witness :
    outputStage (.dict [("type", PyVal.str "stream"), ("payload", PyVal.list []),
        ("size", PyVal.int 0)])
      = .ok (.str "Stream summary: 0 readings")
    ∧ outputStage (.dict [("type", PyVal.str "stream"),
        ("payload", PyVal.list [PyVal.dict [("value", PyVal.int 18), ("unit", PyVal.str "C")]]),
        ("size", PyVal.int 1)])
      ≠ .error .zeroDivisionError :=
  ⟨c5_empty_stream_no_div.1
      [("type", PyVal.str "stream"), ("payload", PyVal.list []), ("size", PyVal.int 0)]
      (PyVal.int 0) rfl rfl rfl,
    c5_empty_stream_no_div.2
      [("type", PyVal.str "stream"),
        ("payload", PyVal.list [PyVal.dict [("value", PyVal.int 18), ("unit", PyVal.str "C")]]),
        ("size", PyVal.int 1)]
      [PyVal.dict [("value", PyVal.int 18), ("unit", PyVal.str "C")]] rfl rfl rfl⟩

/-- The temperature reading 23.5 of the chaining demo, as the rational
47/2 (the constructor form keeps the value kernel-computable). -/
def tempVal : ℚ := ⟨47, 2, by norm_num, by norm_num⟩

/-- The temperature-reading mapping input of the chaining demo. -/
def tempInput : PyVal :=
  .dict [("sensor", .str "temp"), ("value", .num tempVal), ("unit", .str "C")]

/-- The three-pipeline split of the chaining demo: pipeline A
classifies and transforms, pipeline B transforms again, pipeline C
renders; all three are structured adapters. -/
def splitPipes : List Pipe :=
  [⟨.json, [.input, .transform]⟩, ⟨.json, [.transform]⟩, ⟨.json, [.output]⟩]

/-- C8: threading the temperature reading through the manager over the
three-pipeline split produces exactly the same result as one
structured-adapter pipeline running the same stages in the same order
on the same input, and that result is the rendered single-reading
summary (23.5 rendered through the abstract numeral rendering of the
embedding). -/
theorem c8_split_equals_fused :
    managerProcess splitPipes tempInput
      = jsonAdapterProcess [.input, .transform, .transform, .output] tempInput
    ∧ managerProcess splitPipes tempInput
      = .ok (.str ("Processed temperature reading: " ++ numStr tempVal
          ++ "°C  (Normal range)")) :=
  ⟨rfl, rfl⟩
